import Mathlib

/-!
A shallow embedding of the SSE client transport (`src/client/sse.ts`).

The transport is single-threaded and event-driven.  We model it as explicit
state passing: every operation takes the transport state and an effect log
(the `onerror` / `onmessage` / `onclose` callback invocations and the POST
requests issued so far) and returns the updated state, log, and the outcome
of the operation's promise (`none` = still pending, `some (.ok ())` =
resolved, `some (.error e)` = rejected).

External collaborators are oracles:
  * the auth collaborator (`auth(provider, { serverUrl })`) is a stream of
    results consumed one call at a time (`auths : Nat → AuthCall` with a
    running counter `k`);
  * the message codec (`JSONRPCMessageSchema.parse ∘ JSON.parse` and
    `JSON.stringify`) is a pair `decode` / `encode` in the configuration;
  * URL resolution (`new URL(payload, base)`) is `resolveURL`, returning
    `none` where the constructor would throw;
  * the streaming channel is a script: one list of channel events per
    connection generation (each `new EventSource` consumes the next list);
  * each `fetch` of the send pipeline consumes the next `FetchOutcome`.
-/

namespace SSEClient

/-- The result string of the external `auth` collaborator.  The source
branches on `result !== "AUTHORIZED"`; we model it as a closed variant. -/
inductive AuthResult
  | authorized
  | notAuthorized
deriving DecidableEq, Repr

/-- One call to the external `auth` collaborator: it returns a result or
throws. -/
inductive AuthCall
  | result (r : AuthResult)
  | thrown (e : String)
deriving DecidableEq, Repr

/-- The error taxonomy: every `throw new Error(...)` / `SseError` site of
`sse.ts`, by site. -/
inductive Err
  | alreadyStarted
  | notConnected
  | noAuthProvider
  | unauthorized
  | authFailure (e : String)
  | sseError (code : Option Nat) (msg : String)
  | endpointOriginMismatch (origin : String)
  | endpointParse (payload : String)
  | httpError (status : Nat) (body : Option String)
  | decodeError (raw : String)
  | netFailure (e : String)
deriving DecidableEq, Repr

/-- A URL as the transport observes it: `new URL(...)` values compared by
`origin`, with the rest of the address kept opaque. -/
structure URLModel where
  origin : String
  pathname : String
deriving DecidableEq, Repr

/-- Construction-time configuration of `SSEClientTransport`, plus the
external collaborators (codec, URL resolution) it consults. -/
structure Config (Msg : Type) where
  url : URLModel
  hasAuthProvider : Bool
  /-- `authProvider.tokens()`: the current access token, if any. -/
  tokens : Option String
  /-- whether `opts.eventSourceInit` was supplied (overriding the default
  header-attaching fetch). -/
  eventSourceInitOverride : Bool
  /-- `opts.requestInit.headers`, as the list of own-key/value pairs of the
  caller's record. -/
  requestInitHeaders : List (String × String)
  /-- `new URL(payload, base)`; `none` models the constructor throwing. -/
  resolveURL : String → URLModel → Option URLModel
  /-- `JSONRPCMessageSchema.parse(JSON.parse(text))`; `none` models a throw. -/
  decode : String → Option Msg
  /-- `JSON.stringify(message)`. -/
  encode : Msg → String

/-- The mutable fields of `SSEClientTransport`.  `esSet` records that the
`_eventSource` field holds a value (it is never cleared, not even by
`close()`); `esOpen` records that the underlying stream has not been
closed; `generation` counts `new EventSource` constructions. -/
structure TState where
  esSet : Bool := false
  esOpen : Bool := false
  endpoint : Option URLModel := none
  acSet : Bool := false
  aborted : Bool := false
  generation : Nat := 0
deriving DecidableEq, Repr

/-- One outbound POST request as issued by `send`. -/
structure FetchRequest where
  target : URLModel
  headers : List (String × String)
  body : String
deriving DecidableEq, Repr

/-- The observable effect log: callback invocations, streaming channels
opened (`new EventSource(url)`), and POSTs, in order. -/
structure Effects (Msg : Type) where
  errors : List Err := []
  messages : List Msg := []
  closes : Nat := 0
  streams : List URLModel := []
  posts : List FetchRequest := []
deriving DecidableEq

/-- Events emitted by one streaming channel (one `EventSource` lifetime). -/
inductive ChannelEvent
  | endpoint (payload : String)
  | message (payload : String)
  | chanError (code : Option Nat) (msg : String)
deriving DecidableEq, Repr

/-- The outcome of one `fetch` in the send pipeline: a response with a
status and (best-effort) body text, or a network-level throw. -/
inductive FetchOutcome
  | resp (status : Nat) (body : Option String)
  | netErr (e : String)
deriving DecidableEq, Repr

/-- Settling a promise: `resolve`/`reject` are no-ops once settled. -/
def settle (s : Option (Except Err Unit)) (r : Except Err Unit) :
    Option (Except Err Unit) :=
  match s with
  | some x => some x
  | none => some r

/-- Chain one promise's outcome into another via `.then(resolve, reject)`:
a pending chained promise leaves the outer one pending. -/
def settleOpt (s r : Option (Except Err Unit)) : Option (Except Err Unit) :=
  match s with
  | some x => some x
  | none => r

/-- `close()`: `this._abortController?.abort(); this._eventSource?.close();
this.onclose?.();` — unconditional, with no already-closed guard. -/
def close {Msg : Type} (st : TState) (eff : Effects Msg) :
    TState × Effects Msg :=
  ({ st with aborted := st.acSet || st.aborted, esOpen := false },
   { eff with closes := eff.closes + 1 })

/-- `_commonHeaders()`: a bearer `Authorization` header from the provider's
current token, when a provider is configured and a token is available. -/
def _commonHeaders {Msg : Type} (cfg : Config Msg) : List (String × String) :=
  if cfg.hasAuthProvider then
    match cfg.tokens with
    | some tok => [("Authorization", "Bearer " ++ tok)]
    | none => []
  else []

/-- JS object spread `{ ...a, ...b }` on string-keyed records: keys of `a`
in order (values overridden by `b` on exact key collision), then keys of
`b` not present in `a`, in order. -/
def recordMerge (a b : List (String × String)) : List (String × String) :=
  (a.map fun p =>
    match b.find? (fun q => q.1 == p.1) with
    | some q => (p.1, q.2)
    | none => p) ++
  b.filter fun q => !(a.any fun p => p.1 == q.1)

/-- ASCII lowercase of a character (header names are ASCII tokens). -/
def lowerChar (c : Char) : Char :=
  if c.isUpper then Char.ofNat (c.toNat + 32) else c

/-- ASCII lowercase of a header name. -/
def lowerName (s : String) : String := ⟨s.data.map lowerChar⟩

/-- `Headers.append`: header names are case-insensitive (normalized to
lowercase); appending to an existing name combines the values. -/
def headersAppend (hs : List (String × String)) (n v : String) :
    List (String × String) :=
  let ln := lowerName n
  if hs.any (fun p => p.1 == ln) then
    hs.map fun p => if p.1 == ln then (p.1, p.2 ++ ", " ++ v) else p
  else hs ++ [(ln, v)]

/-- `new Headers(record)`: append each entry of the record in order. -/
def headersOfRecord (r : List (String × String)) : List (String × String) :=
  r.foldl (fun hs p => headersAppend hs p.1 p.2) []

/-- `Headers.set`: replace the value under the (case-insensitive) name, or
append it. -/
def headersSet (hs : List (String × String)) (n v : String) :
    List (String × String) :=
  let ln := lowerName n
  if hs.any (fun p => p.1 == ln) then
    hs.map fun p => if p.1 == ln then (p.1, v) else p
  else hs ++ [(ln, v)]

/-- `Headers.get` (names are case-insensitive). -/
def headerGet (hs : List (String × String)) (n : String) : Option String :=
  (hs.find? fun p => p.1 == lowerName n).map (·.2)

/-- Exact-key lookup in a JS record (first occurrence). -/
def lookupH (hs : List (String × String)) (n : String) : Option String :=
  (hs.find? fun p => p.1 == n).map (·.2)

/-- The headers of every POST issued by `send`:
`new Headers({ ...commonHeaders, ...this._requestInit?.headers })` followed
by `headers.set("content-type", "application/json")`. -/
def sendHeaders {Msg : Type} (cfg : Config Msg) : List (String × String) :=
  headersSet
    (headersOfRecord (recordMerge (_commonHeaders cfg) cfg.requestInitHeaders))
    "content-type" "application/json"

/-- The headers attached by the default `fetch` wrapper of the streaming
channel (`_startOrAuth`, lines 105–110): when the caller supplied an
`eventSourceInit` override, no automatic headers are attached (`none`);
otherwise the wrapper fetches with `_commonHeaders`. -/
def streamFetchHeaders {Msg : Type} (cfg : Config Msg) :
    Option (List (String × String)) :=
  if cfg.eventSourceInitOverride then none else some (_commonHeaders cfg)

/-- `send(message)` (lines 180–218).  `fetches` scripts the outcome of each
successive `fetch`; an exhausted script leaves the call pending. -/
def send {Msg : Type} (cfg : Config Msg) (st : TState) (eff : Effects Msg)
    (m : Msg) (fetches : List FetchOutcome) (auths : Nat → AuthCall)
    (k : Nat) : TState × Effects Msg × Nat × Option (Except Err Unit) :=
  match st.endpoint with
  | none => (st, eff, k, some (.error .notConnected))
  | some ep =>
    let eff := { eff with
      posts := eff.posts ++ [⟨ep, sendHeaders cfg, cfg.encode m⟩] }
    match fetches with
    | [] => (st, eff, k, none)
    | f :: rest =>
      match f with
      | .netErr e =>
        (st, { eff with errors := eff.errors ++ [.netFailure e] }, k,
         some (.error (.netFailure e)))
      | .resp status body =>
        if 200 ≤ status ∧ status < 300 then
          (st, eff, k, some (.ok ()))
        else if status = 401 ∧ cfg.hasAuthProvider = true then
          match auths k with
          | .thrown e =>
            (st, { eff with errors := eff.errors ++ [.authFailure e] },
             k + 1, some (.error (.authFailure e)))
          | .result r =>
            if r = .authorized then
              send cfg st eff m rest auths (k + 1)
            else
              (st, { eff with errors := eff.errors ++ [.unauthorized] },
               k + 1, some (.error .unauthorized))
        else
          (st, { eff with errors := eff.errors ++ [.httpError status body] },
           k, some (.error (.httpError status body)))

mutual

/-- `_startOrAuth()` (lines 103–162): construct a new `EventSource`
(consuming the next generation's event script; the `_endpoint` of a
previous generation is *not* cleared) and a new `AbortController`, then let
the channel's handlers drive the returned promise.  An exhausted script
leaves the promise pending. -/
def startOrAuth {Msg : Type} (cfg : Config Msg) (st : TState)
    (eff : Effects Msg) (gens : List (List ChannelEvent))
    (auths : Nat → AuthCall) (k : Nat) :
    TState × Effects Msg × Nat × Option (Except Err Unit) :=
  let st' : TState :=
    { st with esSet := true, esOpen := true,
              generation := st.generation + 1, acSet := true,
              aborted := false }
  let eff' : Effects Msg := { eff with streams := eff.streams ++ [cfg.url] }
  match gens with
  | [] => (st', eff', k, none)
  | evs :: rest => processEvents cfg st' eff' none evs rest auths k
termination_by (gens.length, 0, 0)

/-- The event handlers installed by `_startOrAuth`, run over one
generation's event script.  `settled` is the state of the promise this
generation's `resolve`/`reject` close over.  A channel-level error ends the
stream: a non-challenge error after `reject(error); this.onerror?.(error)`,
a 401 with a provider after handing control to `_authThenStart` (whose
outcome is chained into the promise by `.then(resolve, reject)`). -/
def processEvents {Msg : Type} (cfg : Config Msg) (st : TState)
    (eff : Effects Msg) (settled : Option (Except Err Unit))
    (evs : List ChannelEvent) (restGens : List (List ChannelEvent))
    (auths : Nat → AuthCall) (k : Nat) :
    TState × Effects Msg × Nat × Option (Except Err Unit) :=
  match evs with
  | [] => (st, eff, k, settled)
  | ev :: evs' =>
    match ev with
    | .message payload =>
      match cfg.decode payload with
      | some m =>
        processEvents cfg st
          { eff with messages := eff.messages ++ [m] } settled evs'
          restGens auths k
      | none =>
        processEvents cfg st
          { eff with errors := eff.errors ++ [.decodeError payload] } settled
          evs' restGens auths k
    | .endpoint payload =>
      match cfg.resolveURL payload cfg.url with
      | none =>
        let e := Err.endpointParse payload
        let eff := { eff with errors := eff.errors ++ [e] }
        let p := close st eff
        (p.1, p.2, k, settle settled (.error e))
      | some ep =>
        let st := { st with endpoint := some ep }
        if ep.origin = cfg.url.origin then
          processEvents cfg st eff (settle settled (.ok ())) evs' restGens
            auths k
        else
          let e := Err.endpointOriginMismatch ep.origin
          let eff := { eff with errors := eff.errors ++ [e] }
          let p := close st eff
          (p.1, p.2, k, settle settled (.error e))
    | .chanError code msg =>
      if code = some 401 ∧ cfg.hasAuthProvider = true then
        let r := authThenStart cfg st eff restGens auths k
        (r.1, r.2.1, r.2.2.1, settleOpt settled r.2.2.2)
      else
        let e := Err.sseError code msg
        (st, { eff with errors := eff.errors ++ [e] }, k,
         settle settled (.error e))
termination_by (restGens.length, 2, evs.length)

/-- `_authThenStart()` (lines 71–89): defensively fail with
`noAuthProvider`; call the auth collaborator, reporting a thrown failure
through `onerror` and re-raising it; fail with `unauthorized` on a
non-authorized result; on an authorized result re-run `_startOrAuth`. -/
def authThenStart {Msg : Type} (cfg : Config Msg) (st : TState)
    (eff : Effects Msg) (gens : List (List ChannelEvent))
    (auths : Nat → AuthCall) (k : Nat) :
    TState × Effects Msg × Nat × Option (Except Err Unit) :=
  if cfg.hasAuthProvider = false then
    (st, eff, k, some (.error .noAuthProvider))
  else
    match auths k with
    | .thrown e =>
      (st, { eff with errors := eff.errors ++ [.authFailure e] }, k + 1,
       some (.error (.authFailure e)))
    | .result r =>
      if r = .authorized then
        startOrAuth cfg st eff gens auths (k + 1)
      else
        (st, eff, k + 1, some (.error .unauthorized))
termination_by (gens.length, 1, 0)

end

/-- `start()` (lines 164–172): reject with `alreadyStarted` when the
`_eventSource` field already holds a value, otherwise `_startOrAuth`. -/
def start {Msg : Type} (cfg : Config Msg) (st : TState) (eff : Effects Msg)
    (gens : List (List ChannelEvent)) (auths : Nat → AuthCall) (k : Nat) :
    TState × Effects Msg × Nat × Option (Except Err Unit) :=
  if st.esSet then
    (st, eff, k, some (.error .alreadyStarted))
  else
    startOrAuth cfg st eff gens auths k

/-- A concrete configuration (messages are modelled by their length) used
to instantiate the theorems below on closed inputs. -/
def wcfg : Config Nat where
  url := ⟨"https://a", "/sse"⟩
  hasAuthProvider := true
  tokens := some "tok"
  eventSourceInitOverride := false
  requestInitHeaders := [("X-Custom", "yes")]
  resolveURL := fun p u =>
    if p = "/messages" then some ⟨u.origin, "/messages"⟩
    else some ⟨"https://evil", p⟩
  decode := fun s => if s = "mal" then none else some s.length
  encode := fun n => toString n

/-! ### Header-algebra lemmas -/

theorem lookupH_nil (n : String) : lookupH [] n = none := rfl

/-- `find?` by key commutes with a filter whose predicate only reads the
key. -/
theorem find?_filter_key (b : List (String × String)) (f : String → Bool)
    (n : String) :
    (b.filter fun q => f q.1).find? (fun q => q.1 == n) =
      if f n then b.find? (fun q => q.1 == n) else none := by
  induction b with
  | nil => simp
  | cons q b ih =>
    by_cases hq : q.1 = n
    · subst hq
      by_cases hf : f q.1 <;>
        simp [List.filter_cons, hf, ih, List.find?_cons_of_pos]
    · have hq' : (q.1 == n) = false := by simpa using hq
      by_cases hf : f q.1 <;>
        simp [List.filter_cons, hf, ih, List.find?_cons, hq']

/-- Spread semantics: looking a key up in `{ ...a, ...b }` prefers `b`. -/
theorem lookupH_recordMerge (a b : List (String × String)) (n : String) :
    lookupH (recordMerge a b) n = (lookupH b n).or (lookupH a n) := by
  unfold lookupH recordMerge
  rw [List.find?_append, List.find?_map,
    find?_filter_key b (fun s => !(a.any fun p => p.1 == s)) n]
  have hcomp : ((fun p : String × String => p.1 == n) ∘ fun p =>
      match b.find? (fun q => q.1 == p.1) with
      | some q => (p.1, q.2)
      | none => p) = fun p : String × String => p.1 == n := by
    funext p
    rcases hb : b.find? (fun q => q.1 == p.1) with _ | q <;> simp [hb]
  rw [hcomp]
  rcases ha : a.find? (fun p => p.1 == n) with _ | p
  · have hany : (a.any fun p => p.1 == n) = false := by
      rw [List.any_eq_false]
      intro q hq
      simpa using List.find?_eq_none.mp ha q hq
    rw [hany]
    rcases hb : b.find? (fun q => q.1 == n) with _ | q <;> rw [ha, hb] <;> simp
  · have hpn : p.1 = n := by
      simpa using List.find?_some ha
    have hmem : p ∈ a := List.mem_of_find?_eq_some ha
    have hany : (a.any fun p => p.1 == n) = true := by
      rw [List.any_eq_true]
      exact ⟨p, hmem, by simp [hpn]⟩
    rw [hany]
    rcases hb : b.find? (fun q => q.1 == n) with _ | q
    all_goals
      have hb' := hb
      rw [← hpn] at hb'
      rw [ha, hb]
      simp [hb']

/-- `Headers.set` makes the set name map to the new value. -/
theorem headerGet_headersSet_self (hs : List (String × String)) (n v : String) :
    headerGet (headersSet hs n v) n = some v := by
  unfold headerGet headersSet
  by_cases hany : hs.any (fun p => p.1 == lowerName n)
  · rw [if_pos hany, List.find?_map]
    have hcomp : ((fun p : String × String => p.1 == lowerName n) ∘ fun p =>
        if p.1 == lowerName n then (p.1, v) else p) =
        fun p : String × String => p.1 == lowerName n := by
      funext p
      by_cases hp : p.1 = lowerName n <;> simp [hp]
    rw [hcomp]
    obtain ⟨x, hmem, hx⟩ := List.any_eq_true.mp hany
    rcases hf : hs.find? (fun p => p.1 == lowerName n) with _ | p
    · exact absurd (List.find?_eq_none.mp hf x hmem) (by simp [hx])
    · have hp : p.1 = lowerName n := by simpa using List.find?_some hf
      rw [hf]
      simp [hp]
  · rw [if_neg hany, List.find?_append]
    have h1 : hs.find? (fun p => p.1 == lowerName n) = none := by
      rw [List.find?_eq_none]
      intro x hx
      exact fun hc => hany (List.any_eq_true.mpr ⟨x, hx, hc⟩)
    simp [h1]

/-- `Headers.set` under one name leaves every other name unchanged. -/
theorem headerGet_headersSet_ne (hs : List (String × String)) (n v m : String)
    (h : lowerName n ≠ lowerName m) :
    headerGet (headersSet hs n v) m = headerGet hs m := by
  unfold headerGet headersSet
  by_cases hany : hs.any (fun p => p.1 == lowerName n)
  · rw [if_pos hany, List.find?_map]
    have hcomp : ((fun p : String × String => p.1 == lowerName m) ∘ fun p =>
        if p.1 == lowerName n then (p.1, v) else p) =
        fun p : String × String => p.1 == lowerName m := by
      funext p
      by_cases hp : p.1 = lowerName n <;> simp [hp]
    rw [hcomp]
    rcases hf : hs.find? (fun p => p.1 == lowerName m) with _ | p
    · rw [hf]; rfl
    · rw [hf]
      have hpm : p.1 = lowerName m := by simpa using List.find?_some hf
      have hne : ¬ p.1 = lowerName n := by
        rw [hpm]
        exact fun hc => h hc.symm
      simp [hne]
  · rw [if_neg hany, List.find?_append]
    have h1 : List.find? (fun p : String × String => p.1 == lowerName m)
        [(lowerName n, v)] = none := by
      simp [h]
    simp [h1]

/-- `Headers.append` under one name leaves every other name unchanged. -/
theorem headerGet_headersAppend_ne (hs : List (String × String))
    (n v m : String) (h : lowerName n ≠ lowerName m) :
    headerGet (headersAppend hs n v) m = headerGet hs m := by
  unfold headerGet headersAppend
  by_cases hany : hs.any (fun p => p.1 == lowerName n)
  · rw [if_pos hany, List.find?_map]
    have hcomp : ((fun p : String × String => p.1 == lowerName m) ∘ fun p =>
        if p.1 == lowerName n then (p.1, p.2 ++ ", " ++ v) else p) =
        fun p : String × String => p.1 == lowerName m := by
      funext p
      by_cases hp : p.1 = lowerName n <;> simp [hp]
    rw [hcomp]
    rcases hf : hs.find? (fun p => p.1 == lowerName m) with _ | p
    · rw [hf]; rfl
    · rw [hf]
      have hpm : p.1 = lowerName m := by simpa using List.find?_some hf
      have hne : ¬ p.1 = lowerName n := by
        rw [hpm]
        exact fun hc => h hc.symm
      simp [hne]
  · rw [if_neg hany, List.find?_append]
    have h1 : List.find? (fun p : String × String => p.1 == lowerName m)
        [(lowerName n, v)] = none := by
      simp [h]
    simp [h1]

/-- Folding `Headers.append` over entries with other names leaves a name
unchanged. -/
theorem headerGet_foldAppend (r : List (String × String)) (m : String)
    (h : ∀ q ∈ r, lowerName q.1 ≠ lowerName m) :
    ∀ acc : List (String × String),
      headerGet (r.foldl (fun hs p => headersAppend hs p.1 p.2) acc) m =
        headerGet acc m := by
  induction r with
  | nil => intro acc; rfl
  | cons q r ih =>
    intro acc
    rw [List.foldl_cons,
      ih (fun x hx => h x (List.mem_cons_of_mem _ hx)) _]
    exact headerGet_headersAppend_ne acc q.1 q.2 m (h q (List.mem_cons_self _ _))

/-- A record with no entry under a (case-insensitive) name yields headers
with nothing under that name. -/
theorem headerGet_headersOfRecord_none (r : List (String × String))
    (m : String) (h : ∀ q ∈ r, lowerName q.1 ≠ lowerName m) :
    headerGet (headersOfRecord r) m = none := by
  unfold headersOfRecord
  rw [headerGet_foldAppend r m h []]
  rfl

/-- A record whose head alone carries a (case-insensitive) name yields that
head's value under the name. -/
theorem headerGet_headersOfRecord_cons (x : String × String)
    (r : List (String × String)) (m : String) (hx : lowerName x.1 = lowerName m)
    (h : ∀ q ∈ r, lowerName q.1 ≠ lowerName m) :
    headerGet (headersOfRecord (x :: r)) m = some x.2 := by
  unfold headersOfRecord
  rw [List.foldl_cons, headerGet_foldAppend r m h _]
  unfold headerGet headersAppend
  simp [hx]

/-- Spreading a singleton record under a fresh key prepends it. -/
theorem recordMerge_singleton_fresh (x : String × String)
    (b : List (String × String)) (h : ∀ q ∈ b, q.1 ≠ x.1) :
    recordMerge [x] b = x :: b := by
  unfold recordMerge
  have hf : b.find? (fun q => q.1 == x.1) = none := by
    rw [List.find?_eq_none]
    intro q hq
    simpa using h q hq
  have hfil : (b.filter fun q => !([x].any fun p => p.1 == q.1)) = b := by
    rw [List.filter_eq_self]
    intro q hq
    have : (x.1 == q.1) = false := by
      simpa using fun hc => h q hq hc.symm
    simp [this]
  rw [hfil]
  simp [hf]

/-- Spreading the empty record is the identity. -/
theorem recordMerge_nil (b : List (String × String)) :
    recordMerge [] b = b := by
  unfold recordMerge
  simp

/-! ### Inbound message-event processing -/

/-- Processing a run of message events: valid payloads are delivered in
arrival order, each undecodable payload is reported once and dropped, and
nothing else — state, the pending promise, the close log — changes. -/
theorem processEvents_message_only {Msg : Type} (cfg : Config Msg)
    (st : TState) (settled : Option (Except Err Unit))
    (restGens : List (List ChannelEvent)) (auths : Nat → AuthCall) (k : Nat)
    (ps : List String) :
    ∀ eff : Effects Msg,
      processEvents cfg st eff settled (ps.map ChannelEvent.message) restGens
          auths k =
        (st,
         { eff with
           messages := eff.messages ++ ps.filterMap cfg.decode,
           errors := eff.errors ++
             (ps.filter fun p => (cfg.decode p).isNone).map Err.decodeError },
         k, settled) := by
  induction ps with
  | nil => intro eff; simp [processEvents]
  | cons p ps ih =>
    intro eff
    rw [List.map_cons]
    rcases hd : cfg.decode p with _ | m
    · rw [processEvents, hd]
      refine (ih _).trans ?_
      simp [hd, List.filter_cons]
    · rw [processEvents, hd]
      refine (ih _).trans ?_
      simp [hd, List.filter_cons]

/-! ### Claim theorems -/

/-- C6: a second `start()` on a transport whose streaming channel already
exists fails with `alreadyStarted` and opens no second channel (state and
effect log untouched); a first `start()` on an idle transport opens a
streaming channel to the Target Address. -/
theorem c6_start_guard {Msg : Type} (cfg : Config Msg) (st : TState)
    (eff : Effects Msg) (gens : List (List ChannelEvent))
    (auths : Nat → AuthCall) (k : Nat) :
    (st.esSet = true →
      start cfg st eff gens auths k =
        (st, eff, k, some (Except.error Err.alreadyStarted))) ∧
    (st.esSet = false →
      start cfg st eff [] auths k =
        ({ st with esSet := true, esOpen := true, acSet := true,
                   aborted := false, generation := st.generation + 1 },
         { eff with streams := eff.streams ++ [cfg.url] }, k, none)) := by
  constructor
  · intro h
    simp [start, h]
  · intro h
    simp [start, h, startOrAuth]

/-- C3: an endpoint event whose payload resolves to a different origin
rejects the pending `start` with the origin-mismatch error, fires the error
callback exactly once, closes the streaming channel (firing the close
callback exactly once). -/
theorem c3_endpoint_origin_mismatch {Msg : Type} (cfg : Config Msg)
    (st : TState) (eff : Effects Msg) (auths : Nat → AuthCall) (k : Nat)
    (p : String) (ep : URLModel)
    (hres : cfg.resolveURL p cfg.url = some ep)
    (hor : ep.origin ≠ cfg.url.origin) (hidle : st.esSet = false) :
    start cfg st eff [[ChannelEvent.endpoint p]] auths k =
      ({ st with esSet := true, esOpen := false, endpoint := some ep,
                 acSet := true, aborted := true,
                 generation := st.generation + 1 },
       { eff with
         errors := eff.errors ++ [Err.endpointOriginMismatch ep.origin],
         closes := eff.closes + 1,
         streams := eff.streams ++ [cfg.url] },
       k, some (Except.error (Err.endpointOriginMismatch ep.origin))) := by
  simp [start, hidle, startOrAuth, processEvents, hres, hor, close, settle]

/-- C5: `send` before any endpoint is known fails with `notConnected`,
issues no POST, fires no callback, and leaves the transport state (in
particular: not closed) untouched. -/
theorem c5_send_before_endpoint {Msg : Type} (cfg : Config Msg)
    (st : TState) (eff : Effects Msg) (m : Msg)
    (fetches : List FetchOutcome) (auths : Nat → AuthCall) (k : Nat)
    (h : st.endpoint = none) :
    send cfg st eff m fetches auths k =
      (st, eff, k, some (Except.error Err.notConnected)) := by
  rw [send, h]

/-- C4 (code bug): `close()` is not idempotent — two successive `close()`
calls invoke the close callback twice, where the claim requires exactly
once. -/
theorem c4_close_twice_refires_onclose :
    (close (close ({} : TState) ({} : Effects Nat)).1
        (close ({} : TState) ({} : Effects Nat)).2).2.closes = 2 ∧
    (close ({} : TState) ({} : Effects Nat)).2.closes = 1 := by
  constructor <;> rfl

/-- C9: the Authentication Retry Protocol (`_authThenStart`) fails with
`noAuthProvider` when no provider is configured; reports a collaborator
throw through the error callback and re-raises it; and rejects with
`unauthorized` on a non-authorized result, with no further auth calls. -/
theorem c9_auth_retry_protocol {Msg : Type} (cfg : Config Msg) (st : TState)
    (eff : Effects Msg) (gens : List (List ChannelEvent))
    (auths : Nat → AuthCall) (k : Nat) (e : String) (r : AuthResult) :
    (cfg.hasAuthProvider = false →
      authThenStart cfg st eff gens auths k =
        (st, eff, k, some (Except.error Err.noAuthProvider))) ∧
    (cfg.hasAuthProvider = true → auths k = AuthCall.thrown e →
      authThenStart cfg st eff gens auths k =
        (st, { eff with errors := eff.errors ++ [Err.authFailure e] },
         k + 1, some (Except.error (Err.authFailure e)))) ∧
    (cfg.hasAuthProvider = true → auths k = AuthCall.result r →
      r ≠ AuthResult.authorized →
      authThenStart cfg st eff gens auths k =
        (st, eff, k + 1, some (Except.error Err.unauthorized))) := by
  refine ⟨fun h => ?_, fun h ha => ?_, fun h ha hr => ?_⟩
  · simp [authThenStart, h]
  · simp [authThenStart, h, ha]
  · simp [authThenStart, h, ha, hr]

/-- C1: a POST answered with 401 while a provider is configured, followed
by an authorized retry-protocol run, resends the same message exactly once
more with an identical payload; when that second response is a 2xx the
`send` call resolves with no error-callback invocation. -/
theorem c1_send_401_single_resend {Msg : Type} (cfg : Config Msg)
    (st : TState) (eff : Effects Msg) (m : Msg) (ep : URLModel)
    (b1 b2 : Option String) (s2 : Nat) (auths : Nat → AuthCall) (k : Nat)
    (hep : st.endpoint = some ep) (hprov : cfg.hasAuthProvider = true)
    (hauth : auths k = AuthCall.result AuthResult.authorized)
    (h2 : 200 ≤ s2) (h3 : s2 < 300) :
    send cfg st eff m [FetchOutcome.resp 401 b1, FetchOutcome.resp s2 b2]
        auths k =
      (st,
       { eff with posts := eff.posts ++
           [⟨ep, sendHeaders cfg, cfg.encode m⟩,
            ⟨ep, sendHeaders cfg, cfg.encode m⟩] },
       k + 1, some (Except.ok ())) := by
  have h401 : ¬(200 ≤ 401 ∧ 401 < 300) := by decide
  simp [send, hep, hprov, hauth, h401, h2, h3]

/-- C2: a channel-level 401 with a provider configured runs the
Authentication Retry Protocol with the original `start` intent and, on an
authorized outcome, re-runs the full connection sequence as a new
generation (a second stream to the Target Address); the pending `start`
resolves once the reconnect reaches its endpoint event, and stays pending
until it does. -/
theorem c2_channel_401_reconnect {Msg : Type} (cfg : Config Msg)
    (st : TState) (eff : Effects Msg) (auths : Nat → AuthCall) (k : Nat)
    (msg : String) (p : String) (ep : URLModel)
    (hprov : cfg.hasAuthProvider = true)
    (hauth : auths k = AuthCall.result AuthResult.authorized)
    (hres : cfg.resolveURL p cfg.url = some ep)
    (hor : ep.origin = cfg.url.origin) (hidle : st.esSet = false) :
    (start cfg st eff
        [[ChannelEvent.chanError (some 401) msg], [ChannelEvent.endpoint p]]
        auths k =
      ({ st with esSet := true, esOpen := true, endpoint := some ep,
                 acSet := true, aborted := false,
                 generation := st.generation + 2 },
       { eff with streams := eff.streams ++ [cfg.url, cfg.url] },
       k + 1, some (Except.ok ()))) ∧
    (start cfg st eff [[ChannelEvent.chanError (some 401) msg]] auths k =
      ({ st with esSet := true, esOpen := true,
                 acSet := true, aborted := false,
                 generation := st.generation + 2 },
       { eff with streams := eff.streams ++ [cfg.url, cfg.url] },
       k + 1, none)) := by
  constructor
  · simp [start, hidle, startOrAuth, processEvents, authThenStart, hprov,
      hauth, hres, hor, settle, settleOpt]
  · simp [start, hidle, startOrAuth, processEvents, authThenStart, hprov,
      hauth, settleOpt]

/-- C7: in a run of inbound message events with one malformed payload among
valid ones, the malformed event produces exactly one error-callback
invocation and is dropped without closing the channel or changing the
transport state, while every valid event is delivered through the message
callback in arrival order. -/
theorem c7_malformed_frame_dropped {Msg : Type} (cfg : Config Msg)
    (st : TState) (eff : Effects Msg) (settled : Option (Except Err Unit))
    (restGens : List (List ChannelEvent)) (auths : Nat → AuthCall) (k : Nat)
    (a b : List String) (bad : String)
    (ha : ∀ x ∈ a, (cfg.decode x).isSome = true)
    (hb : ∀ x ∈ b, (cfg.decode x).isSome = true)
    (hbad : cfg.decode bad = none) :
    processEvents cfg st eff settled
        ((a ++ bad :: b).map ChannelEvent.message) restGens auths k =
      (st,
       { eff with
         messages := eff.messages ++ (a ++ bad :: b).filterMap cfg.decode,
         errors := eff.errors ++ [Err.decodeError bad] },
       k, settled) := by
  rw [processEvents_message_only]
  have hnone : ∀ x : String, (cfg.decode x).isSome = true →
      (cfg.decode x).isNone = false := by
    intro x hx
    rcases hd : cfg.decode x with _ | m
    · rw [hd] at hx; simp at hx
    · rfl
  have hfa : (a.filter fun p => (cfg.decode p).isNone) = [] := by
    rw [List.filter_eq_nil_iff]
    intro x hx
    simp [hnone x (ha x hx)]
  have hfb : (b.filter fun p => (cfg.decode p).isNone) = [] := by
    rw [List.filter_eq_nil_iff]
    intro x hx
    simp [hnone x (hb x hx)]
  simp [List.filter_append, List.filter_cons, hbad, hfa, hfb]

/-- C8: the POST headers of `send` start from a bearer `Authorization`
header derived from the provider's current token; caller-supplied headers
are overlaid with caller values winning on key collision (spread
semantics); and the `content-type` header is forced to `application/json`
regardless of caller input. -/
theorem c8_send_header_pipeline {Msg : Type} (cfg : Config Msg)
    (tok : String) (hprov : cfg.hasAuthProvider = true)
    (htok : cfg.tokens = some tok) :
    _commonHeaders cfg = [("Authorization", "Bearer " ++ tok)] ∧
    (∀ n, lookupH (recordMerge (_commonHeaders cfg) cfg.requestInitHeaders)
        n =
      (lookupH cfg.requestInitHeaders n).or
        (lookupH (_commonHeaders cfg) n)) ∧
    headerGet (sendHeaders cfg) "content-type" = some "application/json" ∧
    ((∀ q ∈ cfg.requestInitHeaders, lowerName q.1 ≠ "authorization") →
      headerGet (sendHeaders cfg) "authorization" =
        some ("Bearer " ++ tok)) := by
  have hch : _commonHeaders cfg = [("Authorization", "Bearer " ++ tok)] := by
    simp [_commonHeaders, hprov, htok]
  refine ⟨hch, fun n => lookupH_recordMerge _ _ n, ?_, fun hq => ?_⟩
  · exact headerGet_headersSet_self _ _ _
  · have hlow : lowerName "Authorization" = "authorization" := by decide
    have hct : lowerName "content-type" ≠ lowerName "authorization" := by decide
    have haz : lowerName "authorization" = "authorization" := by decide
    have hmerge : recordMerge (_commonHeaders cfg) cfg.requestInitHeaders =
        ("Authorization", "Bearer " ++ tok) :: cfg.requestInitHeaders := by
      rw [hch]
      refine recordMerge_singleton_fresh _ _ ?_
      intro q hmem hc
      exact hq q hmem (by rw [hc, hlow])
    unfold sendHeaders
    rw [headerGet_headersSet_ne _ _ _ _ hct, hmerge]
    refine headerGet_headersOfRecord_cons _ _ _ (by rw [hlow, haz]) ?_
    intro q hmem
    rw [haz]
    exact hq q hmem

/-- C10: with a provider configured whose `tokens()` yields nothing,
requests still go out rather than failing: the default streaming-channel
fetch attaches an (empty) header set with no `Authorization` entry, the
POST headers carry no `authorization` entry, and `send` still issues its
POST. -/
theorem c10_no_token_requests_still_issued {Msg : Type} (cfg : Config Msg)
    (st : TState) (eff : Effects Msg) (m : Msg) (ep : URLModel)
    (auths : Nat → AuthCall) (k : Nat)
    (hprov : cfg.hasAuthProvider = true) (htok : cfg.tokens = none)
    (hover : cfg.eventSourceInitOverride = false)
    (hhdr : ∀ q ∈ cfg.requestInitHeaders, lowerName q.1 ≠ "authorization")
    (hep : st.endpoint = some ep) :
    streamFetchHeaders cfg = some [] ∧
    headerGet (sendHeaders cfg) "authorization" = none ∧
    send cfg st eff m [] auths k =
      (st,
       { eff with
         posts := eff.posts ++ [⟨ep, sendHeaders cfg, cfg.encode m⟩] },
       k, none) := by
  have hch : _commonHeaders cfg = [] := by
    simp [_commonHeaders, hprov, htok]
  refine ⟨?_, ?_, ?_⟩
  · simp [streamFetchHeaders, hover, hch]
  · have hct : lowerName "content-type" ≠ lowerName "authorization" := by decide
    have haz : lowerName "authorization" = "authorization" := by decide
    unfold sendHeaders
    rw [headerGet_headersSet_ne _ _ _ _ hct, hch, recordMerge_nil]
    refine headerGet_headersOfRecord_none _ _ ?_
    intro q hmem
    rw [haz]
    exact hhdr q hmem
  · rw [send, hep]

/-! ### Witnesses: the claim theorems applied at closed inputs -/

theorem c1_send_401_single_resend_witness :
    send wcfg { endpoint := some ⟨"https://a", "/messages"⟩ } {} 7
        [FetchOutcome.resp 401 none, FetchOutcome.resp 200 none]
        (fun _ => AuthCall.result AuthResult.authorized) 0 =
      ({ endpoint := some ⟨"https://a", "/messages"⟩ },
       { posts := [⟨⟨"https://a", "/messages"⟩, sendHeaders wcfg, "7"⟩,
                   ⟨⟨"https://a", "/messages"⟩, sendHeaders wcfg, "7"⟩] },
       1, some (Except.ok ())) := by
  rw [c1_send_401_single_resend wcfg _ {} 7 ⟨"https://a", "/messages"⟩
    none none 200 _ 0 rfl rfl rfl (by decide) (by decide)]; rfl

theorem c2_channel_401_reconnect_witness :
    start wcfg {} {}
        [[ChannelEvent.chanError (some 401) "x"],
         [ChannelEvent.endpoint "/messages"]]
        (fun _ => AuthCall.result AuthResult.authorized) 0 =
      ({ esSet := true, esOpen := true,
         endpoint := some ⟨"https://a", "/messages"⟩, acSet := true,
         generation := 2 },
       { streams := [wcfg.url, wcfg.url] }, 1, some (Except.ok ())) := by
  rw [(c2_channel_401_reconnect wcfg {} {} _ 0 "x" "/messages"
    ⟨"https://a", "/messages"⟩ rfl rfl (by decide) rfl rfl).1]; rfl

theorem c3_endpoint_origin_mismatch_witness :
    start wcfg {} {} [[ChannelEvent.endpoint "elsewhere"]]
        (fun _ => AuthCall.result AuthResult.authorized) 0 =
      ({ esSet := true, esOpen := false,
         endpoint := some ⟨"https://evil", "elsewhere"⟩, acSet := true,
         aborted := true, generation := 1 },
       { errors := [Err.endpointOriginMismatch "https://evil"], closes := 1,
         streams := [wcfg.url] },
       0, some (Except.error (Err.endpointOriginMismatch "https://evil"))) := by
  rw [c3_endpoint_origin_mismatch wcfg {} {} _ 0 "elsewhere"
    ⟨"https://evil", "elsewhere"⟩ (by decide) (by decide) rfl]; rfl

theorem c5_send_before_endpoint_witness :
    send wcfg {} {} 7 [] (fun _ => AuthCall.result AuthResult.authorized)
        0 =
      ({}, {}, 0, some (Except.error Err.notConnected)) := by
  rw [c5_send_before_endpoint wcfg {} {} 7 [] _ 0 rfl]

theorem c6_start_guard_witness :
    (start wcfg { esSet := true } {} []
        (fun _ => AuthCall.result AuthResult.authorized) 0 =
      ({ esSet := true }, {}, 0, some (Except.error Err.alreadyStarted))) ∧
    (start wcfg {} {} [] (fun _ => AuthCall.result AuthResult.authorized)
        0 =
      ({ esSet := true, esOpen := true, acSet := true, generation := 1 },
       { streams := [wcfg.url] }, 0, none)) := by
  constructor
  · rw [(c6_start_guard wcfg { esSet := true } {} [] _ 0).1 rfl]
  · rw [(c6_start_guard wcfg {} {} [] _ 0).2 rfl]; rfl

theorem c7_malformed_frame_dropped_witness :
    processEvents wcfg {} {} none
        ((["aa"] ++ "mal" :: ["bbb"]).map ChannelEvent.message) []
        (fun _ => AuthCall.result AuthResult.authorized) 0 =
      ({}, { errors := [Err.decodeError "mal"], messages := [2, 3] }, 0,
       none) := by
  rw [c7_malformed_frame_dropped wcfg {} {} none [] _ 0 ["aa"] ["bbb"]
    "mal" (by decide) (by decide) (by decide)]; rfl

theorem c8_send_header_pipeline_witness :
    _commonHeaders wcfg = [("Authorization", "Bearer " ++ "tok")] ∧
    lookupH (recordMerge (_commonHeaders wcfg) wcfg.requestInitHeaders)
        "Authorization" =
      (lookupH wcfg.requestInitHeaders "Authorization").or
        (lookupH (_commonHeaders wcfg) "Authorization") ∧
    headerGet (sendHeaders wcfg) "content-type" =
      some "application/json" ∧
    headerGet (sendHeaders wcfg) "authorization" =
      some ("Bearer " ++ "tok") := by
  obtain ⟨h1, h2, h3, h4⟩ := c8_send_header_pipeline wcfg "tok" rfl rfl
  exact ⟨h1, h2 "Authorization", h3, h4 (by decide)⟩

theorem c9_auth_retry_protocol_witness :
    (authThenStart { wcfg with hasAuthProvider := false } {} {} []
        (fun _ => AuthCall.result AuthResult.authorized) 0 =
      ({}, {}, 0, some (Except.error Err.noAuthProvider))) ∧
    (authThenStart wcfg {} {} [] (fun _ => AuthCall.thrown "boom") 0 =
      ({}, { errors := [Err.authFailure "boom"] }, 1,
       some (Except.error (Err.authFailure "boom")))) ∧
    (authThenStart wcfg {} {} []
        (fun _ => AuthCall.result AuthResult.notAuthorized) 0 =
      ({}, {}, 1, some (Except.error Err.unauthorized))) := by
  refine ⟨?_, ?_, ?_⟩
  · rw [(c9_auth_retry_protocol { wcfg with hasAuthProvider := false }
      {} {} [] _ 0 "e" AuthResult.authorized).1 rfl]
  · rw [(c9_auth_retry_protocol wcfg {} {} [] _ 0 "boom"
      AuthResult.authorized).2.1 rfl rfl]; rfl
  · rw [(c9_auth_retry_protocol wcfg {} {} [] _ 0 "e"
      AuthResult.notAuthorized).2.2 rfl rfl (by decide)]

theorem c10_no_token_requests_still_issued_witness :
    streamFetchHeaders { wcfg with tokens := none } = some [] ∧
    headerGet (sendHeaders { wcfg with tokens := none }) "authorization" =
      none ∧
    send { wcfg with tokens := none }
        { endpoint := some ⟨"https://a", "/messages"⟩ } {} 7 []
        (fun _ => AuthCall.result AuthResult.authorized) 0 =
      ({ endpoint := some ⟨"https://a", "/messages"⟩ },
       { posts := [⟨⟨"https://a", "/messages"⟩,
           sendHeaders { wcfg with tokens := none }, "7"⟩] },
       0, none) := by
  obtain ⟨h1, h2, h3⟩ := c10_no_token_requests_still_issued
    { wcfg with tokens := none } { endpoint := some ⟨"https://a", "/messages"⟩ }
    {} 7 ⟨"https://a", "/messages"⟩
    (fun _ => AuthCall.result AuthResult.authorized) 0 rfl rfl rfl
    (by decide) rfl
  exact ⟨h1, h2, h3⟩

end SSEClient
